import Mathlib

/-!
Verification of the handler/middleware pipeline and the reflection-driven
documentation generator of the `project` repository
(src/project/middleware/common.go, src/project/middleware/transaction.go,
src/project/utils/printer_http_api.go, src/project/utils/printer_mqtt_topic.go).

Go maps and `any` payloads are embedded as association lists over a small
JSON-like value type; Go's `(*S, error)` pair is embedded as a pair of
options; loops become structural recursion with the loop variable that the
source decreases made explicit.
-/

/-- JSON-like values: the shallow embedding of Go's `map[string]any`,
`[]any`, strings, numbers and booleans as used by the documentation
generators. An object is the association list of its writes in program
order. -/
inductive JSON where
  | str (s : String)
  | jnum (n : Int)
  | jbool (b : Bool)
  | arr (elems : List JSON)
  | obj (fields : List (String × JSON))

/-- Association-list form of a Go `map[string]any`. -/
abbrev JObj := List (String × JSON)

/-- Lookup in an association list: first binding wins (all generators below
write each key at most once, or overwrite in place via `upsertObj`). -/
def lookupObj (m : JObj) (k : String) : Option JSON :=
  match m with
  | [] => none
  | (k', v') :: rest => if k' = k then some v' else lookupObj rest k

/-- Write to a Go map embedded as an association list: replace the existing
binding in place, or append a new one. -/
def upsertObj (m : JObj) (k : String) (v : JSON) : JObj :=
  match m with
  | [] => [(k, v)]
  | (k', v') :: rest => if k' = k then (k, v) :: rest else (k', v') :: upsertObj rest k v

/-- Keys of an embedded object, in binding order. -/
def jsonKeys (j : JSON) : List String :=
  match j with
  | .obj fields => fields.map (fun p => p.1)
  | _ => []

/-- The character `{` (written via its code point to keep it out of string
literals). -/
def lbrace : Char := Char.ofNat 123

/-- The character `}`. -/
def rbrace : Char := Char.ofNat 125

/-- Split a character list on a single separator character; agrees with Go
`strings.Split` for one-character separators (always returns at least one
piece). -/
def splitOnChar (sep : Char) : List Char → List (List Char)
  | [] => [[]]
  | c :: rest =>
    let r := splitOnChar sep rest
    if c = sep then
      [] :: r
    else
      match r with
      | [] => [[c]]
      | piece :: more => (c :: piece) :: more

/-- Go `strings.Split(s, ",")[0]`: the prefix of `s` before the first comma
(the whole string when there is no comma). -/
def truncAtComma (s : String) : String :=
  match splitOnChar ',' s.data with
  | [] => ""
  | piece :: _ => ⟨piece⟩

/-- Go `strings.ToLower` restricted to ASCII, as a structural map over the
characters. -/
def lowerStr (s : String) : String := ⟨s.data.map Char.toLower⟩

/-- Go `strings.ToUpper` restricted to ASCII. -/
def upperStr (s : String) : String := ⟨s.data.map Char.toUpper⟩

/-- True for the characters of the cutset of `strings.Trim(part, ...)` used
in path-parameter extraction (the two brace characters). -/
def isBrace (c : Char) : Bool := c = lbrace || c = rbrace

/-- Go `strings.Trim(s, cutset)` for the brace cutset: drop leading and
trailing braces. -/
def trimBraces (part : List Char) : String :=
  ⟨((part.dropWhile isBrace).reverse.dropWhile isBrace).reverse⟩

mutual
/-- Embedding of Go `reflect.Type` restricted to the kinds that
`generateSchema` (printer_http_api.go:288-328) distinguishes: struct,
slice, pointer, string, the signed-integer kinds, the float kinds, bool;
`otherTy` stands for every remaining kind (map, chan, func, interface,
unsigned integers, complex, ...), all of which fall to the `default`
branch of the source's switch. -/
inductive GoType where
  | structTy (fields : GoFields)
  | sliceTy (elem : GoType)
  | ptrTy (elem : GoType)
  | stringTy
  | intTy
  | floatTy
  | boolTy
  | otherTy

/-- The field list of a struct type: declared name, the value of the
field's `json` tag (empty string when the tag is absent, as Go's
`Tag.Get` reports), and the field's type. -/
inductive GoFields where
  | fnil
  | fcons (name : String) (tag : String) (ty : GoType) (rest : GoFields)
end

/-- The fields as a plain list of (name, tag, type) triples. -/
def GoFields.toList : GoFields → List (String × String × GoType)
  | .fnil => []
  | .fcons name tag ty rest => (name, tag, ty) :: rest.toList

mutual
/-- Embedding of `generateSchema` (printer_http_api.go:288-328): recursive
structural schema derivation over a type. The `properties` Go map is
materialized as the association list of its writes in field order. -/
def generateSchema : GoType → JSON
  | .structTy fields =>
      .obj [("type", .str "object"), ("properties", .obj (generateProperties fields))]
  | .sliceTy e => .obj [("type", .str "array"), ("items", generateSchema e)]
  | .ptrTy e => generateSchema e
  | .stringTy => .obj [("type", .str "string")]
  | .intTy => .obj [("type", .str "integer")]
  | .floatTy => .obj [("type", .str "number")]
  | .boolTy => .obj [("type", .str "boolean")]
  | .otherTy => .obj [("type", .str "object")]

/-- The per-field loop of the struct case of `generateSchema`: key is the
json tag, or the declared name when the tag is empty, then truncated at
the first comma (the source truncates after the substitution). -/
def generateProperties : GoFields → JObj
  | .fnil => []
  | .fcons name tag ty rest =>
      let jsonTag := if tag = "" then name else tag
      (truncAtComma jsonTag, generateSchema ty) :: generateProperties rest
end

/-- The serialized field name as the specification describes it: the
explicit tag when one is present, truncated at the first separator
character; the declared field name otherwise. -/
def specFieldKey (name tag : String) : String :=
  if tag = "" then name else truncAtComma tag

/-- The property list C3's spec sentence predicts: each field keyed by
`specFieldKey`, child schemas derived recursively. -/
def specProps : GoFields → JObj
  | .fnil => []
  | .fcons name tag ty rest => (specFieldKey name tag, generateSchema ty) :: specProps rest

/-- A well-formed schema node: an object carrying a `type` entry that is
one of the six kinds the generator can emit. -/
def isSchemaNode (j : JSON) : Bool :=
  match j with
  | .obj fields =>
    match lookupObj fields "type" with
    | some (.str t) =>
        (t = "object") || (t = "array") || (t = "string") ||
        (t = "integer") || (t = "number") || (t = "boolean")
    | _ => false
  | _ => false

/-- Embedding of the Go pair `(*S, error)` returned by every
`core.ActionHandler`: a possibly-nil response pointer and a possibly-nil
error. -/
structure GoResult (S E : Type) where
  resp : Option S
  err : Option E

/-- The loop of `Retry` (common.go:58-80). The inner handler may behave
differently on successive invocations (it is effectful in Go), so it is
embedded as a function of the number of invocations already made: `h i`
is the result of invocation `i+1`. The source's loop counter `count`
(starting at 1, incremented on each error, loop continued while
`count <= attempt` after the increment) is re-expressed by the remaining
budget `remaining = attempt - count`: the source continues exactly when
`count + 1 <= attempt`, i.e. when `remaining > 0`, and `remaining`
decreases by one per error, which makes the recursion structural.
Returns the source's return value together with the total number of
invocations performed. -/
def retryAux {S E : Type} (h : Nat → GoResult S E) : Nat → Nat → GoResult S E × Nat
  | idx, remaining =>
    match (h idx).err with
    | some e =>
      match remaining with
      | 0 => ({ resp := none, err := some e }, idx + 1)
      | rem + 1 => retryAux h (idx + 1) rem
    | none => ({ resp := (h idx).resp, err := none }, idx + 1)

/-- Embedding of `Retry` (common.go:58-80): `count` starts at 1, so the
initial remaining budget is `attempt - 1`. -/
def Retry {S E : Type} (h : Nat → GoResult S E) (attempt : Nat) : GoResult S E × Nat :=
  retryAux h 0 (attempt - 1)

/-- Embedding of the result mapping of `Logging` (common.go:13-45): the
printing is pure side effect; on an inner error the wrapper returns
`(nil, err)`, otherwise `(response, nil)`. -/
def Logging {S E : Type} (h : GoResult S E) : GoResult S E :=
  if h.err.isSome then { resp := none, err := h.err } else { resp := h.resp, err := none }

/-- One unit of work as seen by the transaction middleware: whether the
commit operation would fail, and whether the rollback operation would
fail. -/
structure UnitOfWork (E : Type) where
  commitErr : Option E
  rollbackErr : Option E

/-- The observable outcome of the transaction middleware: the returned
pair, plus whether the unit of work was finalized through the commit path
and whether it was finalized through the rollback path. -/
structure TxOutcome (S E : Type) where
  resp : Option S
  err : Option E
  commitAttempted : Bool
  rollbackAttempted : Bool

/-- Modelled from the spec: the external unit-of-work runner
(`db.Transaction` of the gorm library, not part of this repository).
Per section 4.1 of the spec it runs the closure, commits when the
closure returns nil and rolls back otherwise, and a commit or rollback
failure takes precedence over and replaces the closure's own error.
Returns the transaction error together with the (commit, rollback)
finalization flags. -/
def runUnitOfWork {E : Type} (uow : UnitOfWork E) (fcErr : Option E) : Option E × Bool × Bool :=
  match fcErr with
  | some e =>
    (match uow.rollbackErr with
     | some re => some re
     | none => some e, false, true)
  | none => (uow.commitErr, true, false)

/-- Embedding of `TransactionMiddleware` (transaction.go:16-46): the
closure returns the inner handler's error; when the transaction runner
reports an error the middleware returns `(nil, txErr)`, otherwise it
returns the captured `(result, err)` pair unchanged. -/
def TransactionMiddleware {S E : Type} (uow : UnitOfWork E) (h : GoResult S E) : TxOutcome S E :=
  let r := runUnitOfWork uow h.err
  match r.1 with
  | some txe =>
      { resp := none, err := some txe, commitAttempted := r.2.1, rollbackAttempted := r.2.2 }
  | none =>
      { resp := h.resp, err := h.err, commitAttempted := r.2.1, rollbackAttempted := r.2.2 }

/-- Context keys are typed string tokens (`core.ContextKey`). -/
abbrev ContextKey := String

/-- Modelled from the spec: `core.AttachDataToContext` lives in
`project/core/core.go`, which is not included in src (only its callers
are). Section 4.2 of the spec: `Attach(ctx, key, value)` returns a
derived context and never mutates the original. A Go context is a chain
of parent links, embedded as the list of attached bindings, most recent
first. -/
def AttachDataToContext {V : Type} (ctx : List (ContextKey × V)) (key : ContextKey) (v : V) :
    List (ContextKey × V) :=
  (key, v) :: ctx

/-- Modelled from the spec: `core.GetDataFromContext`, also from the
missing `project/core/core.go`. Section 4.2 of the spec: returns the
attached value if present, else the caller-supplied default; lookup
walks the derivation chain, nearest attachment first. -/
def GetDataFromContext {V : Type} (ctx : List (ContextKey × V)) (key : ContextKey) (dflt : V) : V :=
  match ctx with
  | [] => dflt
  | (k, v) :: rest => if k = key then v else GetDataFromContext rest key dflt

/-- Embedding of `QueryParam` (printer_http_api.go:12-17). -/
structure QueryParam where
  name : String
  type : String
  description : String
  required : Bool

/-- Embedding of `ExampleResponse` (printer_http_api.go:19-22); the status
code is an integer and the content an arbitrary payload. -/
structure ExampleResponse where
  statusCode : Int
  content : JSON

/-- Embedding of `MultipartFormParam` (printer_http_api.go:37-42). -/
structure MultipartFormParam where
  name : String
  type : String
  description : String
  required : Bool

/-- Embedding of `APIData` (printer_http_api.go:24-35). `body` is the
reflected type of the `Body any` field, `none` standing for a nil body. -/
structure APIData where
  method : String
  url : String
  body : Option GoType
  queryParams : List QueryParam
  summary : String
  description : String
  tag : String
  examples : List ExampleResponse
  multipartFormParam : List MultipartFormParam

/-- Path-parameter extraction of `generateOpenAPISchema`
(printer_http_api.go:154-167): split the URL on `/`; every part that
starts with an opening brace and ends with a closing brace contributes
one path parameter whose name is the part with braces trimmed. (The
source also rewrites `parts[i]`, a dead store: `parts` is not read
afterwards.) -/
def pathParamsOf (url : String) : List JObj :=
  (splitOnChar '/' url.data).filterMap fun part =>
    if part.head? = some lbrace && part.getLast? = some rbrace then
      some [("name", .str (trimBraces part)),
            ("in", .str "path"),
            ("required", .jbool true),
            ("schema", .obj [("type", .str "string")])]
    else
      none

/-- One query parameter object (printer_http_api.go:195-206). -/
def queryParamObj (p : QueryParam) : JObj :=
  [("name", .str p.name),
   ("in", .str "query"),
   ("description", .str p.description),
   ("required", .jbool p.required),
   ("schema", .obj [("type", .str p.type)])]

/-- Embedding of `generateMultipartFormSchema`
(printer_http_api.go:330-350): a Go map keyed by parameter name,
materialized as the association list of its writes. -/
def generateMultipartFormSchema (params : List MultipartFormParam) : JObj :=
  params.foldl
    (fun acc p =>
      if p.type = "file" then
        upsertObj acc p.name
          (.obj [("type", .str "array"),
                 ("items", .obj [("type", .str "string"), ("format", .str "binary")]),
                 ("description", .str p.description)])
      else
        upsertObj acc p.name
          (.obj [("type", .str p.type), ("description", .str p.description)]))
    []

/-- The `summary` entry (printer_http_api.go:179-183): the endpoint's
summary, or `METHOD path` when the summary is empty. -/
def summaryField (ep : APIData) : JObj :=
  if ep.summary ≠ "" then
    [("summary", .str ep.summary)]
  else
    [("summary", .str (upperStr (lowerStr ep.method) ++ " " ++ ep.url))]

/-- The optional `description` entry (printer_http_api.go:185-187). -/
def descriptionField (ep : APIData) : JObj :=
  if ep.description ≠ "" then [("description", .str ep.description)] else []

/-- The optional `tags` entry (printer_http_api.go:189-192). -/
def tagsField (ep : APIData) : JObj :=
  if ep.tag ≠ "" then [("tags", .arr [.str ep.tag])] else []

/-- The optional `parameters` entry (printer_http_api.go:194-209): path
parameters followed by query parameters, present only when non-empty. -/
def parametersField (ep : APIData) : JObj :=
  let ps := pathParamsOf ep.url ++ ep.queryParams.map queryParamObj
  if ps.length > 0 then [("parameters", .arr (ps.map JSON.obj))] else []

/-- The optional `requestBody` entry (printer_http_api.go:211-238): the
multipart schema when multipart parameters exist, else the reflected
JSON body schema when a body is declared and the lowercased method is
not `get`. -/
def requestBodyField (ep : APIData) : JObj :=
  if ep.multipartFormParam.length > 0 then
    [("requestBody",
      .obj [("content",
        .obj [("multipart/form-data",
          .obj [("schema",
            .obj [("type", .str "object"),
                  ("properties", .obj (generateMultipartFormSchema ep.multipartFormParam))])])])])]
  else
    match ep.body with
    | some b =>
      if lowerStr ep.method ≠ "get" then
        [("requestBody",
          .obj [("content",
            .obj [("application/json", .obj [("schema", generateSchema b)])])])]
      else []
    | none => []

/-- The `responses` map (printer_http_api.go:240-258): one entry per
declared example keyed by the decimal status code, and a default `200`
entry when no examples were declared. -/
def responsesField (ep : APIData) : JObj :=
  let fromExamples :=
    ep.examples.foldl
      (fun acc ex =>
        upsertObj acc (toString ex.statusCode)
          (.obj [("description", .str ("Status " ++ toString ex.statusCode ++ " response")),
                 ("content",
                  .obj [("application/json", .obj [("example", ex.content)])])]))
      []
  if ep.examples.length = 0 then
    upsertObj fromExamples "200" (.obj [("description", .str "Successful operation")])
  else
    fromExamples

/-- The operation object built for one endpoint by the loop body of
`generateOpenAPISchema` (printer_http_api.go:175-258). The operation is a
Go map, materialized as the association list of the entries the source
assigns (each key is assigned at most once per endpoint). -/
def buildOperation (ep : APIData) : JObj :=
  summaryField ep ++ descriptionField ep ++ tagsField ep ++
    parametersField ep ++ requestBodyField ep ++
    [("responses", .obj (responsesField ep))]

/-- Embedding of `OpenAPISchema` (printer_http_api.go:352-359). -/
structure OpenAPISchema where
  openapi : String
  info : JObj
  servers : List JObj
  paths : JObj
  components : JObj
  tags : List JObj

/-- Embedding of `generateOpenAPISchema` (printer_http_api.go:129-282).
The `uniqueTags` Go set is iterated in an unspecified order; that order
is made explicit as the `tagOrder` parameter (a duplicate-free
enumeration of the non-empty tags of the registry). The paths map is
built endpoint by endpoint: the path item for the endpoint's URL is
fetched (or freshly created), the lowercased method is bound to the
operation object, and the item is stored back. -/
def generateOpenAPISchema (urls : List APIData) (baseURL : String) (tagOrder : List String) :
    OpenAPISchema :=
  { openapi := "3.0.0"
  , info := [("title", .str "IAM API"), ("version", .str "1.0.0")]
  , servers := [[("url", .str baseURL), ("description", .str "API server")]]
  , paths :=
      urls.foldl
        (fun acc ep =>
          let method := lowerStr ep.method
          let prevItem : JObj :=
            match lookupObj acc ep.url with
            | some (.obj m) => m
            | _ => []
          upsertObj acc ep.url (.obj (upsertObj prevItem method (.obj (buildOperation ep)))))
        []
  , components :=
      [("securitySchemes",
        .obj [("bearerAuth",
          .obj [("type", .str "http"), ("scheme", .str "bearer"),
                ("bearerFormat", .str "JWT")])])]
  , tags := tagOrder.map fun t => [("name", .str t)] }

/-- Embedding of `MQTTTopicData` (printer_mqtt_topic.go:11-17). -/
structure MQTTTopicData where
  topic : String
  description : String
  tag : String
  handlerType : String
  subscription : Bool

/-- One serialized topic entry (printer_mqtt_topic.go:70-75): exactly the
four fields topic, description, tag, subscription (the handler-type field
is not serialized). -/
def topicEntry (t : MQTTTopicData) : JSON :=
  .obj [("topic", .str t.topic),
        ("description", .str t.description),
        ("tag", .str t.tag),
        ("subscription", .jbool t.subscription)]

/-- Embedding of `GenerateMQTTTopicSchema` (printer_mqtt_topic.go:64-81)
at the level of the JSON value it serializes. -/
def GenerateMQTTTopicSchema (topics : List MQTTTopicData) : JSON :=
  .obj [("mqtt_topics", .arr (topics.map topicEntry))]

/-- Chain of object lookups into a generated document. -/
def lookupPath : Option JSON → List String → Option JSON
  | j, [] => j
  | some (.obj m), k :: ks => lookupPath (lookupObj m k) ks
  | _, _ => none

/-- The endpoint of the end-to-end scenario of spec section 8: POST on the
users URL with an untagged two-string-field body and a single 200
example. -/
def sampleEndpoint : APIData :=
  { method := "POST"
  , url := "/api/users/\x7bid\x7d"
  , body := some (.structTy (.fcons "Email" "" .stringTy (.fcons "Name" "" .stringTy .fnil)))
  , queryParams := []
  , summary := ""
  , description := ""
  , tag := ""
  , examples := [{ statusCode := 200, content := .obj [("status", .str "success")] }]
  , multipartFormParam := [] }

/-- A GET endpoint declaring a body and no multipart parameters. -/
def epGetSample : APIData :=
  { method := "GET"
  , url := "/api/users"
  , body := some .stringTy
  , queryParams := []
  , summary := ""
  , description := ""
  , tag := ""
  , examples := []
  , multipartFormParam := [] }

/-- A handler that fails on its first invocation and succeeds afterwards. -/
def retryWitnessHandler : Nat → GoResult Nat String :=
  fun i => if i < 1 then { resp := none, err := some "boom" } else { resp := some 7, err := none }

/-- Success half of the retry loop: if the handler fails on all
invocations before the k-th and succeeds at invocation index k, and the
success happens strictly before the budget runs out, the loop starting
at index j returns the success result after invocation k. -/
theorem retryAux_succeeds {S E : Type} (h : Nat → GoResult S E) (k N : Nat)
    (hfail : ∀ i, i < k → ((h i).err).isSome = true) (hsucc : (h k).err = none) :
    ∀ d j, k - j = d → j ≤ k → k < N →
      retryAux h j (N - 1 - j) = ({ resp := (h k).resp, err := none }, k + 1) := by
  intro d
  induction d with
  | zero =>
    intro j hd hjk hkN
    have hj : j = k := by omega
    subst hj
    rw [retryAux, hsucc]
  | succ d ih =>
    intro j hd hjk hkN
    have hj : j < k := by omega
    obtain ⟨e, he⟩ := Option.isSome_iff_exists.mp (hfail j hj)
    have hrem : N - 1 - j = (N - 1 - (j + 1)) + 1 := by omega
    rw [retryAux, he, hrem]
    exact ih (j + 1) (by omega) (by omega) hkN

/-- Exhaustion half of the retry loop: if the handler fails on every
invocation before the k-th and the budget N is at most k, the loop
returns the error of invocation index N-1 after N invocations. -/
theorem retryAux_exhausts {S E : Type} (h : Nat → GoResult S E) (k N : Nat)
    (hfail : ∀ i, i < k → ((h i).err).isSome = true) (hN : 1 ≤ N) (hNk : N ≤ k) :
    ∀ d j, N - 1 - j = d → j < N →
      retryAux h j (N - 1 - j) = ({ resp := none, err := (h (N - 1)).err }, N) := by
  intro d
  induction d with
  | zero =>
    intro j hd hjN
    have hj : j = N - 1 := by omega
    subst hj
    obtain ⟨e, he⟩ := Option.isSome_iff_exists.mp (hfail (N - 1) (by omega))
    have hone : N - 1 + 1 = N := by omega
    rw [retryAux, he, hd, hone]
  | succ d ih =>
    intro j hd hjN
    have hj : j < k := by omega
    obtain ⟨e, he⟩ := Option.isSome_iff_exists.mp (hfail j hj)
    rw [retryAux, he, hd]
    have hd' : N - 1 - (j + 1) = d := by omega
    rw [← hd']
    exact ih (j + 1) hd' (by omega)

/-- C1: for every retry count N at least 1 and every inner handler that
errors on its first k invocations and succeeds on invocation k+1, the
handler returned by Retry(inner, N) returns the successful result after
exactly k+1 invocations of the inner handler when k is less than N
(returning immediately on the first success), and when k is at least N it
returns a nil response together with the error produced by the N-th
invocation after exactly N invocations. -/
theorem retry_first_success_or_last_error {S E : Type} (h : Nat → GoResult S E) (N k : Nat)
    (hN : 1 ≤ N)
    (hfail : ∀ i, i < k → ((h i).err).isSome = true)
    (hsucc : (h k).err = none) :
    (k < N → Retry h N = ({ resp := (h k).resp, err := none }, k + 1)) ∧
    (N ≤ k → Retry h N = ({ resp := none, err := (h (N - 1)).err }, N)) := by
  constructor
  · intro hkN
    have := retryAux_succeeds h k N hfail hsucc k 0 (by omega) (by omega) hkN
    simpa [Retry] using this
  · intro hNk
    have := retryAux_exhausts h k N hfail hN hNk (N - 1) 0 (by omega) (by omega)
    simpa [Retry] using this

/-- Witness for C1 at a handler failing exactly once with a budget of
three attempts. -/
theorem retry_first_success_or_last_error_witness :
    1 ≤ 3 ∧ (∀ i, i < 1 → ((retryWitnessHandler i).err).isSome = true) ∧
    (retryWitnessHandler 1).err = none ∧
    Retry retryWitnessHandler 3 = ({ resp := some 7, err := none }, 2) :=
  ⟨by omega, by decide, rfl,
   (retry_first_success_or_last_error retryWitnessHandler 3 1 (by omega) (by decide) rfl).1
     (by omega)⟩

/-- C2: the unit of work is finalized through the commit path exactly when
the inner handler returns a nil error and through the rollback path
exactly when it returns a non-nil error; on an inner error with a
successful rollback the caller receives a nil response and the inner
handler's original error; a rollback failure or a commit failure is
returned in place of the inner handler's error. -/
theorem transaction_commit_rollback_semantics {S E : Type} (uow : UnitOfWork E)
    (h : GoResult S E) :
    ((TransactionMiddleware uow h).commitAttempted = true ↔ h.err = none) ∧
    ((TransactionMiddleware uow h).rollbackAttempted = true ↔ (h.err).isSome = true) ∧
    (∀ e, h.err = some e → uow.rollbackErr = none →
      (TransactionMiddleware uow h).resp = none ∧ (TransactionMiddleware uow h).err = some e) ∧
    (∀ e re, h.err = some e → uow.rollbackErr = some re →
      (TransactionMiddleware uow h).err = some re) ∧
    (∀ ce, h.err = none → uow.commitErr = some ce →
      (TransactionMiddleware uow h).err = some ce) := by
  obtain ⟨hresp, herr⟩ := h
  obtain ⟨hc, hr⟩ := uow
  cases herr <;> cases hc <;> cases hr <;>
    simp [TransactionMiddleware, runUnitOfWork]

/-- Witness for C2: a handler error with a clean unit of work is rolled
back and returned unchanged with a nil response. -/
theorem transaction_commit_rollback_semantics_witness :
    (TransactionMiddleware (UnitOfWork.mk none none)
        (GoResult.mk (none : Option Nat) (some "boom"))).resp = none ∧
    (TransactionMiddleware (UnitOfWork.mk none none)
        (GoResult.mk (none : Option Nat) (some "boom"))).err = some "boom" :=
  (transaction_commit_rollback_semantics ⟨none, none⟩ ⟨none, some "boom"⟩).2.2.1 "boom" rfl rfl

/-- The retry loop never returns a present response together with a
present error: the error branch drops the response, the success branch
drops the error. -/
theorem retryAux_no_both {S E : Type} (h : Nat → GoResult S E) :
    ∀ remaining idx,
      ¬((((retryAux h idx remaining).1.resp).isSome = true) ∧
        (((retryAux h idx remaining).1.err).isSome = true)) := by
  intro remaining
  induction remaining with
  | zero =>
    intro idx
    rw [retryAux]
    cases he : (h idx).err <;> simp
  | succ rem ih =>
    intro idx
    rw [retryAux]
    cases he : (h idx).err
    · simp
    · exact ih (idx + 1)

/-- C9: the handlers produced by the Logging, Retry, and Transaction
middleware never return a non-nil response together with a non-nil
error, whatever the inner handler returns. -/
theorem middlewares_never_resp_with_err :
    (∀ (S E : Type) (h : GoResult S E),
      ¬(((Logging h).resp).isSome = true ∧ ((Logging h).err).isSome = true)) ∧
    (∀ (S E : Type) (h : Nat → GoResult S E) (attempt : Nat),
      ¬((((Retry h attempt).1).resp).isSome = true ∧
        (((Retry h attempt).1).err).isSome = true)) ∧
    (∀ (S E : Type) (uow : UnitOfWork E) (h : GoResult S E),
      ¬(((TransactionMiddleware uow h).resp).isSome = true ∧
        ((TransactionMiddleware uow h).err).isSome = true)) := by
  refine ⟨?_, ?_, ?_⟩
  · intro S E h
    cases he : h.err <;> simp [Logging, he]
  · intro S E h attempt
    exact retryAux_no_both h (attempt - 1) 0
  · intro S E uow h
    obtain ⟨hresp, herr⟩ := h
    obtain ⟨hc, hr⟩ := uow
    cases herr <;> cases hc <;> cases hr <;>
      simp [TransactionMiddleware, runUnitOfWork]

/-- When every computed key is left unchanged by comma truncation of the
declared names, the properties built by the source agree with the
spec-described keying (tag when present, truncated at the first comma,
else the declared name). -/
theorem generateProperties_eq_specProps : ∀ (fields : GoFields),
    (∀ f ∈ fields.toList, truncAtComma f.1 = f.1) →
    generateProperties fields = specProps fields
  | .fnil, _ => rfl
  | .fcons name tag ty rest, hname => by
    have hrest := generateProperties_eq_specProps rest
      (fun f hf => hname f (by simp [GoFields.toList, hf]))
    have hhead : truncAtComma name = name :=
      hname (name, tag, ty) (by simp [GoFields.toList])
    by_cases htag : tag = "" <;>
      simp [generateProperties, specProps, specFieldKey, htag, hhead, hrest]

/-- C3: for every struct type whose declared field names contain no comma
(as Go identifiers cannot), the generated node is an object node whose
property list keys each field by its explicit serialization tag when one
is present, truncated at the first comma, and by the declared field name
otherwise; and any kind outside struct, slice, pointer, string, integer,
float, and boolean maps to a generic object placeholder node rather than
an error, so generation is total. -/
theorem generateSchema_struct_field_keys (fields : GoFields)
    (hname : ∀ f ∈ fields.toList, truncAtComma f.1 = f.1) :
    generateSchema (.structTy fields) =
      .obj [("type", .str "object"), ("properties", .obj (specProps fields))] ∧
    generateSchema .otherTy = .obj [("type", .str "object")] := by
  refine ⟨?_, rfl⟩
  rw [generateSchema, generateProperties_eq_specProps fields hname]

/-- Witness for C3 on a two-field struct with one qualified tag and one
untagged field. -/
theorem generateSchema_struct_field_keys_witness :
    (∀ f ∈ (GoFields.fcons "Email" "email,omitempty" .stringTy
        (GoFields.fcons "Name" "" .intTy .fnil)).toList, truncAtComma f.1 = f.1) ∧
    generateSchema (.structTy (GoFields.fcons "Email" "email,omitempty" .stringTy
        (GoFields.fcons "Name" "" .intTy .fnil))) =
      .obj [("type", .str "object"),
            ("properties", .obj (specProps (GoFields.fcons "Email" "email,omitempty" .stringTy
              (GoFields.fcons "Name" "" .intTy .fnil))))] :=
  ⟨by decide, (generateSchema_struct_field_keys _ (by decide)).1⟩

/-- C5: schema generation is total: for every embedded type it terminates
(it is a total function of this development) and yields a schema node
carrying one of the object, array, string, integer, number, or boolean
kinds; no error or unresolved state exists. -/
theorem generateSchema_total : ∀ (t : GoType), isSchemaNode (generateSchema t) = true
  | .structTy _ => rfl
  | .sliceTy _ => rfl
  | .ptrTy e => generateSchema_total e
  | .stringTy => rfl
  | .intTy => rfl
  | .floatTy => rfl
  | .boolTy => rfl
  | .otherTy => rfl

/-- Lookup of a key that no binding of the context carries falls through
to the caller-supplied default. -/
theorem GetDataFromContext_fresh {V : Type} :
    ∀ (ctx : List (ContextKey × V)) (key : ContextKey) (dflt : V),
      (∀ p ∈ ctx, p.1 ≠ key) → GetDataFromContext ctx key dflt = dflt
  | [], _, _, _ => rfl
  | (k, w) :: rest, key, dflt, hfresh => by
    have hk : k ≠ key := hfresh (k, w) (by simp)
    rw [GetDataFromContext, if_neg hk]
    exact GetDataFromContext_fresh rest key dflt (fun q hq => hfresh q (by simp [hq]))

/-- C6: Get after Attach of the same key returns the attached value; Get
returns the default when the key was never attached on the context or
any ancestor; Attach returns a derived context (the original context is
its unchanged tail, nothing is mutated). -/
theorem context_attach_get (V : Type) (ctx : List (ContextKey × V)) (key : ContextKey)
    (v dflt : V) :
    GetDataFromContext (AttachDataToContext ctx key v) key dflt = v ∧
    ((∀ p ∈ ctx, p.1 ≠ key) → GetDataFromContext ctx key dflt = dflt) ∧
    AttachDataToContext ctx key v = (key, v) :: ctx := by
  refine ⟨?_, fun hfresh => GetDataFromContext_fresh ctx key dflt hfresh, rfl⟩
  rw [AttachDataToContext, GetDataFromContext, if_pos rfl]

/-- Witness for C6 on a one-binding context and a fresh key. -/
theorem context_attach_get_witness :
    (∀ p ∈ [("a", (1 : Nat))], p.1 ≠ "b") ∧
    GetDataFromContext (AttachDataToContext [("a", (1 : Nat))] "b" 5) "b" 0 = 5 ∧
    GetDataFromContext [("a", (1 : Nat))] "b" 0 = 0 :=
  ⟨by decide, (context_attach_get Nat [("a", 1)] "b" 5 0).1,
   (context_attach_get Nat [("a", 1)] "b" 5 0).2.1 (by decide)⟩

/-- C7: for a fixed registry, two generation runs whose tag enumerations
are duplicate-free and enumerate the same tags produce identical
documents in every field except the tags list, and their tags lists are
permutations of each other. -/
theorem openapi_generation_deterministic_mod_tags (urls : List APIData) (baseURL : String)
    (o1 o2 : List String) (h1 : o1.Nodup) (h2 : o2.Nodup) (hmem : ∀ t, t ∈ o1 ↔ t ∈ o2) :
    (generateOpenAPISchema urls baseURL o1).openapi =
      (generateOpenAPISchema urls baseURL o2).openapi ∧
    (generateOpenAPISchema urls baseURL o1).info = (generateOpenAPISchema urls baseURL o2).info ∧
    (generateOpenAPISchema urls baseURL o1).servers =
      (generateOpenAPISchema urls baseURL o2).servers ∧
    (generateOpenAPISchema urls baseURL o1).paths =
      (generateOpenAPISchema urls baseURL o2).paths ∧
    (generateOpenAPISchema urls baseURL o1).components =
      (generateOpenAPISchema urls baseURL o2).components ∧
    (generateOpenAPISchema urls baseURL o1).tags.Perm
      (generateOpenAPISchema urls baseURL o2).tags := by
  refine ⟨rfl, rfl, rfl, rfl, rfl, ?_⟩
  have hperm : o1.Perm o2 := (List.perm_ext_iff_of_nodup h1 h2).mpr hmem
  exact hperm.map _

/-- Witness for C7 on an empty registry and two opposite tag orders. -/
theorem openapi_generation_deterministic_mod_tags_witness :
    ["A", "B"].Nodup ∧ ["B", "A"].Nodup ∧ (∀ t, t ∈ ["A", "B"] ↔ t ∈ ["B", "A"]) ∧
    (generateOpenAPISchema [] "u" ["A", "B"]).paths =
      (generateOpenAPISchema [] "u" ["B", "A"]).paths ∧
    (generateOpenAPISchema [] "u" ["A", "B"]).tags.Perm
      ((generateOpenAPISchema [] "u" ["B", "A"]).tags) := by
  have hperm : (["A", "B"] : List String).Perm ["B", "A"] := by decide
  have hmem : ∀ t, t ∈ (["A", "B"] : List String) ↔ t ∈ (["B", "A"] : List String) :=
    fun t => hperm.mem_iff
  have h := openapi_generation_deterministic_mod_tags [] "u" ["A", "B"] ["B", "A"]
    (by decide) (by decide) hmem
  exact ⟨by decide, by decide, hmem, h.2.2.2.1, h.2.2.2.2.2⟩

/-- C8: the topic registry holding exactly the devices heartbeat entry
with empty description serializes to the expected one-entry document,
and in general every serialized entry carries exactly the fields topic,
description, tag, and subscription. -/
theorem mqtt_topic_schema_shape :
    GenerateMQTTTopicSchema [⟨"devices/+/heartbeat", "", "Device", "", true⟩] =
      .obj [("mqtt_topics", .arr [.obj [("topic", .str "devices/+/heartbeat"),
        ("description", .str ""), ("tag", .str "Device"),
        ("subscription", .jbool true)]])] ∧
    ∀ (topics : List MQTTTopicData),
      ∃ entries, GenerateMQTTTopicSchema topics = .obj [("mqtt_topics", .arr entries)] ∧
        ∀ j ∈ entries, jsonKeys j = ["topic", "description", "tag", "subscription"] := by
  refine ⟨rfl, ?_⟩
  intro topics
  refine ⟨topics.map topicEntry, rfl, ?_⟩
  intro j hj
  obtain ⟨t, _, rfl⟩ := List.mem_map.mp hj
  rfl

/-- Lookup distributes over the concatenation of two write lists. -/
theorem lookupObj_append (a b : JObj) (k : String) :
    lookupObj (a ++ b) k =
      match lookupObj a k with
      | some v => some v
      | none => lookupObj b k := by
  induction a with
  | nil => simp [lookupObj]
  | cons p rest ih =>
    obtain ⟨k', v'⟩ := p
    by_cases h : k' = k <;> simp [lookupObj, h, ih]

/-- The summary entry never binds the requestBody key. -/
theorem summaryField_no_requestBody (ep : APIData) :
    lookupObj (summaryField ep) "requestBody" = none := by
  rw [summaryField]; split <;> rfl

/-- The description entry never binds the requestBody key. -/
theorem descriptionField_no_requestBody (ep : APIData) :
    lookupObj (descriptionField ep) "requestBody" = none := by
  rw [descriptionField]; split <;> rfl

/-- The tags entry never binds the requestBody key. -/
theorem tagsField_no_requestBody (ep : APIData) :
    lookupObj (tagsField ep) "requestBody" = none := by
  rw [tagsField]; split <;> rfl

/-- The parameters entry never binds the requestBody key. -/
theorem parametersField_no_requestBody (ep : APIData) :
    lookupObj (parametersField ep) "requestBody" = none := by
  rw [parametersField]; split <;> rfl

/-- The requestBody binding of an operation object is exactly the one its
conditional requestBody entry contributes. -/
theorem lookupObj_buildOperation_requestBody (ep : APIData) :
    lookupObj (buildOperation ep) "requestBody" =
      lookupObj (requestBodyField ep) "requestBody" := by
  simp only [buildOperation, lookupObj_append, summaryField_no_requestBody,
    descriptionField_no_requestBody, tagsField_no_requestBody,
    parametersField_no_requestBody]
  cases lookupObj (requestBodyField ep) "requestBody" <;> rfl

/-- C10: for every endpoint without multipart-form parameters, the
generated operation object carries no requestBody entry when the
lowercased method is get, even when a body type is declared; and a
declared body produces a requestBody entry exactly when the lowercased
method is not get. -/
theorem requestBody_only_for_non_get (ep : APIData) (hmp : ep.multipartFormParam = []) :
    (lowerStr ep.method = "get" → lookupObj (buildOperation ep) "requestBody" = none) ∧
    (∀ b, ep.body = some b → lowerStr ep.method ≠ "get" →
      (lookupObj (buildOperation ep) "requestBody").isSome = true) := by
  constructor
  · intro hget
    rw [lookupObj_buildOperation_requestBody, requestBodyField]
    cases hb : ep.body <;> simp [hmp, hb, hget, lookupObj]
  · intro b hb hne
    rw [lookupObj_buildOperation_requestBody, requestBodyField]
    simp [hmp, hb, hne, lookupObj]

/-- Witness for C10 on a GET endpoint that declares a body and no
multipart parameters. -/
theorem requestBody_only_for_non_get_witness :
    epGetSample.multipartFormParam = [] ∧
    lowerStr epGetSample.method = "get" ∧
    lookupObj (buildOperation epGetSample) "requestBody" = none :=
  ⟨rfl, rfl, (requestBody_only_for_non_get epGetSample rfl).1 rfl⟩

/-- C4 counterexample: in the document generated for the section-8
endpoint (POST on the users URL with the untagged two-field body), the
body schema's property list has no key named email: untagged fields are
keyed by their declared names, here Email and Name. -/
theorem openapi_scenario_email_key_missing :
    lookupPath (some (.obj (generateOpenAPISchema [sampleEndpoint] "http://localhost" []).paths))
      ["/api/users/\x7bid\x7d", "post", "requestBody", "content", "application/json",
       "schema", "properties", "email"] = none := rfl

/-- C4 (amended): for the registry holding exactly the section-8 endpoint,
the generated document's post operation under the users path template
has a parameters list with exactly one path parameter named id, a
requestBody whose application/json schema's properties map has exactly
the keys Email and Name (the declared field names, the body struct
declaring no serialization tags), each of type string, and a 200
response whose application/json example equals the status-success
object. -/
theorem openapi_scenario_amended :
    lookupPath (some (.obj (generateOpenAPISchema [sampleEndpoint] "http://localhost" []).paths))
      ["/api/users/\x7bid\x7d", "post", "parameters"] =
      some (.arr [.obj [("name", .str "id"), ("in", .str "path"), ("required", .jbool true),
        ("schema", .obj [("type", .str "string")])]]) ∧
    lookupPath (some (.obj (generateOpenAPISchema [sampleEndpoint] "http://localhost" []).paths))
      ["/api/users/\x7bid\x7d", "post", "requestBody", "content", "application/json",
       "schema", "properties"] =
      some (.obj [("Email", .obj [("type", .str "string")]),
                  ("Name", .obj [("type", .str "string")])]) ∧
    lookupPath (some (.obj (generateOpenAPISchema [sampleEndpoint] "http://localhost" []).paths))
      ["/api/users/\x7bid\x7d", "post", "responses", "200", "content", "application/json",
       "example"] =
      some (.obj [("status", .str "success")]) :=
  ⟨rfl, rfl, rfl⟩
